import Mathlib

/-!
Verification development for the Driver-Logs ELD trip planner.

The repository's source is a React frontend (`App.jsx`, `TripForm.jsx`,
`RouteMap.jsx`, `LogDisplay.jsx`, and the `ELDLogSheet` component); the
Hours-of-Service scheduling engine described by the specification is not
among the supplied files, so the engine-level definitions below are
modelled from the specification text and are marked as such.  All other
definitions are shallow embeddings of the frontend code: JavaScript
numbers are modelled as rationals, absent/optional fields as `Option`,
and JavaScript truthiness is made explicit where the code relies on it.
-/

namespace DriverLogs

/-- Duty statuses of the ELD grid (the frontend's keys OFF, SLEEPER,
DRIVING, ON_DUTY). -/
inductive Duty
  | OFF
  | SLEEPER
  | DRIVING
  | ON_DUTY
deriving DecidableEq, Repr

/-- One cell entry of the ELD log grid: a 15-minute interval index
(0..95) together with a duty status, as pushed by the entries effect in
`ELDLogSheet`. -/
structure GridEntry where
  interval : Nat
  duty_status : Duty
deriving DecidableEq, Repr

/-- The `DailyLog` wire shape consumed by the presentation layer. -/
structure DailyLog where
  log_date : String
  off_duty_hours : ℚ
  sleeper_berth_hours : ℚ
  driving_hours : ℚ
  on_duty_hours : ℚ
  total_distance : ℚ
  total_vehicle_miles : ℚ
  remarks : String
deriving DecidableEq, Repr

/-- JavaScript `Math.round` on rationals: the floor of `q + 1/2`. -/
def jsRound (q : ℚ) : ℤ := ⌊q + 1/2⌋

/-- Number of 15-minute grid cells a duty-hour field claims:
`Math.round(h * 4)`, clamped at zero the way the `while (n > 0)` loop
treats a non-positive budget. -/
def quarterCount (h : ℚ) : ℕ := (jsRound (h * 4)).toNat

/-- The inner `while` loop of the entries effect in `ELDLogSheet`: push
entries of duty `d` at consecutive interval indices while the per-status
budget stays positive and the running counter stays below 96.  Returns
the pushed entries and the final counter. -/
def fillStatus (d : Duty) : Nat → Nat → List GridEntry × Nat
  | 0, cur => ([], cur)
  | n + 1, cur =>
    if cur < 96 then
      let p := fillStatus d n (cur + 1)
      (⟨cur, d⟩ :: p.1, p.2)
    else ([], cur)

/-- The outer loop of the entries effect over `dutyOrder`, threading the
interval counter through the per-status fills. -/
def fillAll : List (Duty × Nat) → Nat → List GridEntry
  | [], _ => []
  | (d, n) :: rest, cur =>
    let p := fillStatus d n cur
    p.1 ++ fillAll rest p.2

/-- The initial grid entries computed by `ELDLogSheet` from a daily-log
record: quarter-hour counts `Math.round(h*4)` per status, filled in the
fixed order DRIVING, ON_DUTY, SLEEPER, OFF starting at interval 0. -/
def initialEntries (log : DailyLog) : List GridEntry :=
  fillAll
    [(Duty.DRIVING, quarterCount log.driving_hours),
     (Duty.ON_DUTY, quarterCount log.on_duty_hours),
     (Duty.SLEEPER, quarterCount log.sleeper_berth_hours),
     (Duty.OFF, quarterCount log.off_duty_hours)] 0

/-- The layout the claim describes: consecutive blocks of cells, one
block per duty status, in the fixed order DRIVING, ON_DUTY, SLEEPER,
OFF. -/
def consecutiveBlocks (cd cn cs co : Nat) : List GridEntry :=
  ((List.range' 0 cd).map fun i => ⟨i, Duty.DRIVING⟩)
    ++ ((List.range' cd cn).map fun i => ⟨i, Duty.ON_DUTY⟩)
    ++ ((List.range' (cd + cn) cs).map fun i => ⟨i, Duty.SLEEPER⟩)
    ++ ((List.range' (cd + cn + cs) co).map fun i => ⟨i, Duty.OFF⟩)

theorem fillStatus_eq (d : Duty) :
    ∀ (n cur : Nat), cur ≤ 96 →
      fillStatus d n cur =
        (((List.range' cur (min n (96 - cur))).map fun i => ⟨i, d⟩),
          cur + min n (96 - cur)) := by
  intro n
  induction n with
  | zero =>
    intro cur _
    simp [fillStatus]
  | succ n ih =>
    intro cur hcur
    by_cases h : cur < 96
    · rw [fillStatus, if_pos h, ih (cur + 1) (by omega)]
      have hmin : min (n + 1) (96 - cur) = min n (96 - (cur + 1)) + 1 := by omega
      rw [hmin, List.range'_succ]
      simp only [List.map_cons, Prod.mk.injEq, List.cons.injEq, true_and, and_true]
      omega
    · have hcur96 : cur = 96 := by omega
      rw [fillStatus, if_neg h]
      simp [hcur96]

theorem fillStatus_eq_of_le (d : Duty) (n cur : Nat) (h : cur + n ≤ 96) :
    fillStatus d n cur =
      (((List.range' cur n).map fun i => ⟨i, d⟩), cur + n) := by
  have hcur : cur ≤ 96 := by omega
  rw [fillStatus_eq d n cur hcur]
  have : min n (96 - cur) = n := by omega
  rw [this]

theorem jsRound_nonneg (q : ℚ) (h : 0 ≤ q) : 0 ≤ jsRound q :=
  Int.le_floor.2 (by push_cast; linarith)

theorem range'_quad (a b c d : Nat) (h : a + b + c + d = 96) :
    List.range' 0 a ++ (List.range' a b ++ (List.range' (a + b) c
      ++ List.range' (a + b + c) d)) = List.range 96 := by
  rw [List.range'_append_1 (a + b) c d, List.range'_append_1 a b (d + c)]
  have h0 : List.range' 0 a ++ List.range' (0 + a) (d + c + b)
      = List.range' 0 (d + c + b + a) := List.range'_append_1 0 a (d + c + b)
  rw [Nat.zero_add] at h0
  rw [h0, List.range_eq_range']
  congr 1
  omega

/-- C2: for a daily-log record with non-negative hour fields whose
quarter-hour roundings `Math.round(h*4)` sum to exactly 96, the
`ELDLogSheet` entries effect assigns exactly one duty status to each of
the 96 fifteen-minute intervals of the day, allocating
`Math.round(h*4)` consecutive intervals per status in the fixed order
DRIVING, ON_DUTY, SLEEPER, OFF. -/
theorem eld_grid_covers_day (log : DailyLog)
    (hoff : 0 ≤ log.off_duty_hours) (hsl : 0 ≤ log.sleeper_berth_hours)
    (hdr : 0 ≤ log.driving_hours) (hon : 0 ≤ log.on_duty_hours)
    (hsum : jsRound (log.off_duty_hours * 4) + jsRound (log.sleeper_berth_hours * 4)
      + jsRound (log.driving_hours * 4) + jsRound (log.on_duty_hours * 4) = 96) :
    initialEntries log =
        consecutiveBlocks (quarterCount log.driving_hours) (quarterCount log.on_duty_hours)
          (quarterCount log.sleeper_berth_hours) (quarterCount log.off_duty_hours)
      ∧ (initialEntries log).map GridEntry.interval = List.range 96
      ∧ ∀ i < 96, ((initialEntries log).filter (fun e => e.interval == i)).length = 1 := by
  have hro := jsRound_nonneg (log.off_duty_hours * 4) (by positivity)
  have hrs := jsRound_nonneg (log.sleeper_berth_hours * 4) (by positivity)
  have hrd := jsRound_nonneg (log.driving_hours * 4) (by positivity)
  have hrn := jsRound_nonneg (log.on_duty_hours * 4) (by positivity)
  have h96 : quarterCount log.driving_hours + quarterCount log.on_duty_hours
      + quarterCount log.sleeper_berth_hours + quarterCount log.off_duty_hours = 96 := by
    simp only [quarterCount]
    omega
  set cd := quarterCount log.driving_hours with hcd
  set cn := quarterCount log.on_duty_hours with hcn
  set cs := quarterCount log.sleeper_berth_hours with hcs
  set co := quarterCount log.off_duty_hours with hco
  have hblocks : initialEntries log = consecutiveBlocks cd cn cs co := by
    rw [initialEntries, consecutiveBlocks, ← hcd, ← hcn, ← hcs, ← hco]
    rw [fillAll, fillStatus_eq_of_le Duty.DRIVING cd 0 (by omega)]
    rw [fillAll, fillStatus_eq_of_le Duty.ON_DUTY cn (0 + cd) (by omega)]
    rw [fillAll, fillStatus_eq_of_le Duty.SLEEPER cs (0 + cd + cn) (by omega)]
    rw [fillAll, fillStatus_eq_of_le Duty.OFF co (0 + cd + cn + cs) (by omega)]
    rw [fillAll]
    simp only [Nat.zero_add, List.append_nil, List.append_assoc]
  have hmap : (initialEntries log).map GridEntry.interval = List.range 96 := by
    rw [hblocks, consecutiveBlocks]
    simp only [List.map_append, List.map_map, List.append_assoc]
    have hcomp : ∀ d : Duty,
        (GridEntry.interval ∘ fun i => GridEntry.mk i d) = fun i : Nat => i := fun _ => rfl
    simp only [hcomp, List.map_id']
    exact range'_quad cd cn cs co h96
  refine ⟨hblocks, hmap, ?_⟩
  intro i hi
  have hcount : ((initialEntries log).filter (fun e => e.interval == i)).length
      = List.count i ((initialEntries log).map GridEntry.interval) := by
    rw [List.count, List.countP_map, List.countP_eq_length_filter]
    rfl
  rw [hcount, hmap]
  exact List.count_eq_one_of_mem (List.nodup_range 96) (List.mem_range.2 hi)

theorem fillStatus_duty (d : Duty) :
    ∀ (n cur : Nat) (e : GridEntry), e ∈ (fillStatus d n cur).1 → e.duty_status = d := by
  intro n
  induction n with
  | zero =>
    intro cur e he
    simp [fillStatus] at he
  | succ n ih =>
    intro cur e he
    by_cases h : cur < 96
    · rw [fillStatus, if_pos h] at he
      rcases List.mem_cons.1 he with h1 | h2
      · rw [h1]
      · exact ih (cur + 1) e h2
    · rw [fillStatus, if_neg h] at he
      simp at he

theorem fillAll_duty :
    ∀ (ds : List (Duty × Nat)) (cur : Nat) (e : GridEntry),
      e ∈ fillAll ds cur → ∃ q ∈ ds, e.duty_status = q.1 := by
  intro ds
  induction ds with
  | nil =>
    intro cur e he
    simp [fillAll] at he
  | cons hd tl ih =>
    intro cur e he
    rw [fillAll] at he
    rcases List.mem_append.1 he with h1 | h2
    · exact ⟨hd, List.mem_cons_self _ _, fillStatus_duty hd.1 hd.2 cur e h1⟩
    · obtain ⟨q, hq, hqe⟩ := ih _ e h2
      exact ⟨q, List.mem_cons_of_mem _ hq, hqe⟩

/-- C6: the initial grid entries are a deterministic function of only the
four hour fields of the daily-log record — two records agreeing on
`off_duty_hours`, `sleeper_berth_hours`, `driving_hours`,
`on_duty_hours` produce identical entries — and no HOS limit clips the
rendered hours: the number of DRIVING cells is `min (Math.round(4h)) 96`
for any driving-hours value, with no 11-hour (44-cell) cap applied. -/
theorem eld_grid_depends_only_on_hours (l1 l2 : DailyLog)
    (h1 : l1.off_duty_hours = l2.off_duty_hours)
    (h2 : l1.sleeper_berth_hours = l2.sleeper_berth_hours)
    (h3 : l1.driving_hours = l2.driving_hours)
    (h4 : l1.on_duty_hours = l2.on_duty_hours) :
    initialEntries l1 = initialEntries l2
      ∧ ((initialEntries l1).filter (fun e => e.duty_status == Duty.DRIVING)).length
          = min (quarterCount l1.driving_hours) 96 := by
  constructor
  · simp only [initialEntries, h1, h2, h3, h4]
  · rw [initialEntries, fillAll,
      fillStatus_eq Duty.DRIVING (quarterCount l1.driving_hours) 0 (by omega)]
    rw [List.filter_append, List.length_append]
    have hrest : (fillAll
        [(Duty.ON_DUTY, quarterCount l1.on_duty_hours),
         (Duty.SLEEPER, quarterCount l1.sleeper_berth_hours),
         (Duty.OFF, quarterCount l1.off_duty_hours)]
        ((((List.range' 0 (min (quarterCount l1.driving_hours) (96 - 0))).map
            fun i => GridEntry.mk i Duty.DRIVING), 0 + min (quarterCount l1.driving_hours) (96 - 0)).2)).filter
          (fun e => e.duty_status == Duty.DRIVING) = [] := by
      rw [List.filter_eq_nil_iff]
      intro e he
      obtain ⟨q, hq, hqe⟩ := fillAll_duty _ _ e he
      simp only [List.mem_cons, List.not_mem_nil, or_false] at hq
      rcases hq with h | h | h <;> subst h <;> simp [hqe]
    rw [hrest]
    simp only [List.length_nil, Nat.add_zero]
    rw [List.filter_map]
    have hpt : ((fun e : GridEntry => e.duty_status == Duty.DRIVING)
        ∘ fun i => GridEntry.mk i Duty.DRIVING) = fun _ : Nat => true := rfl
    rw [hpt, List.filter_true, List.length_map, List.length_range']

/-- Concrete daily log for the witnesses: the spec's single-day scenario
(11 h driving, 2 h on duty, 11 h off duty). -/
def eldLogExample : DailyLog :=
  ⟨"2026-02-21", 11, 0, 11, 2, 660, 660, ""⟩

/-- Witness for C2 at the spec's single-day scenario log. -/
theorem eld_grid_covers_day_witness :
    ((0 : ℚ) ≤ eldLogExample.off_duty_hours
      ∧ jsRound (eldLogExample.off_duty_hours * 4) + jsRound (eldLogExample.sleeper_berth_hours * 4)
          + jsRound (eldLogExample.driving_hours * 4) + jsRound (eldLogExample.on_duty_hours * 4) = 96)
      ∧ (initialEntries eldLogExample).map GridEntry.interval = List.range 96 :=
  ⟨⟨by norm_num [eldLogExample], by norm_num [jsRound, eldLogExample]⟩,
    (eld_grid_covers_day eldLogExample (by norm_num [eldLogExample])
      (by norm_num [eldLogExample]) (by norm_num [eldLogExample])
      (by norm_num [eldLogExample]) (by norm_num [jsRound, eldLogExample])).2.1⟩

/-- Two logs agreeing on the four hour fields but on nothing else; the
driving hours (20 h) exceed the 11-hour HOS cap. -/
def gridLogA : DailyLog := ⟨"2026-02-21", 1, 2, 20, 1, 500, 500, "first"⟩

/-- Same hour fields as `gridLogA`, every other field different. -/
def gridLogB : DailyLog := ⟨"2026-02-22", 1, 2, 20, 1, 900, 901, "second"⟩

/-- Witness for C6: identical grids despite different dates, mileage and
remarks; 80 DRIVING cells rendered for 20 driving hours, uncapped. -/
theorem eld_grid_depends_only_on_hours_witness :
    gridLogA.driving_hours = gridLogB.driving_hours
      ∧ (initialEntries gridLogA = initialEntries gridLogB
        ∧ ((initialEntries gridLogA).filter
            (fun e => e.duty_status == Duty.DRIVING)).length
          = min (quarterCount gridLogA.driving_hours) 96) :=
  ⟨rfl, eld_grid_depends_only_on_hours gridLogA gridLogB rfl rfl rfl rfl⟩

/-- The frontend's `dutyKeys` row order for the four grid rows. -/
def dutyKeys : List Duty := [Duty.OFF, Duty.SLEEPER, Duty.DRIVING, Duty.ON_DUTY]

/-- One canvas click on cell `(interval, row)` applied to the entries
state, as in `handleCanvasClick`: clicks outside the 96-by-4 grid leave
the state unchanged; a cell already marked with the row's status is
removed (the first matching index, via `findIndex` and an index
filter); otherwise every entry for that interval is removed and the new
entry pushed. -/
def handleCanvasClick (entries : List GridEntry) (interval row : Nat) : List GridEntry :=
  if interval < 96 ∧ row < 4 then
    let dutyStatus := dutyKeys.getD row Duty.OFF
    let existingIdx := entries.findIdx
      (fun e => e.interval == interval && e.duty_status == dutyStatus)
    if existingIdx < entries.length then
      entries.eraseIdx existingIdx
    else
      (entries.filter fun e => !(e.interval == interval)) ++ [⟨interval, dutyStatus⟩]
  else entries

/-- Each 15-minute cell carries at most one duty status. -/
def atMostOnePerInterval (l : List GridEntry) : Prop :=
  ∀ i : Nat, (l.filter (fun e => e.interval == i)).length ≤ 1

theorem handleCanvasClick_preserves (entries : List GridEntry) (interval row : Nat)
    (h : atMostOnePerInterval entries) :
    atMostOnePerInterval (handleCanvasClick entries interval row) := by
  intro i
  rw [handleCanvasClick]
  by_cases hgrid : interval < 96 ∧ row < 4
  · rw [if_pos hgrid]
    by_cases hfound : (entries.findIdx
        (fun e => e.interval == interval
          && e.duty_status == dutyKeys.getD row Duty.OFF)) < entries.length
    · simp only [hfound, if_true]
      calc ((entries.eraseIdx _).filter (fun e => e.interval == i)).length
          ≤ (entries.filter (fun e => e.interval == i)).length :=
            ((List.eraseIdx_sublist entries _).filter _).length_le
        _ ≤ 1 := h i
    · simp only [hfound, if_false]
      rw [List.filter_append, List.length_append]
      by_cases hi : i = interval
      · subst hi
        have h1 : ((entries.filter fun e => !(e.interval == i)).filter
            (fun e => e.interval == i)) = [] := by
          rw [List.filter_eq_nil_iff]
          intro e he
          have := (List.mem_filter.1 he).2
          simp only [Bool.not_eq_true'] at this
          simp [this]
        rw [h1]
        simp
      · have h2 : (([⟨interval, dutyKeys.getD row Duty.OFF⟩] : List GridEntry).filter
            (fun e => e.interval == i)) = [] := by
          simp [Ne.symm hi]
        rw [h2]
        simp only [List.length_nil, Nat.add_zero]
        calc (((entries.filter fun e => !(e.interval == interval)).filter
              (fun e => e.interval == i))).length
            ≤ (entries.filter (fun e => e.interval == i)).length :=
              ((List.filter_sublist entries).filter _).length_le
          _ ≤ 1 := h i
  · rw [if_neg hgrid]
    exact h i

/-- C9: after any finite sequence of canvas clicks applied to the
entries state by `handleCanvasClick`, at most one entry exists per
interval index, provided that invariant holds of the initial entries. -/
theorem canvas_clicks_preserve_unique_status (clicks : List (Nat × Nat))
    (entries : List GridEntry) (h : atMostOnePerInterval entries) :
    atMostOnePerInterval
      (clicks.foldl (fun es c => handleCanvasClick es c.1 c.2) entries) := by
  induction clicks generalizing entries with
  | nil => exact h
  | cons c cs ih => exact ih _ (handleCanvasClick_preserves _ _ _ h)

/-- Witness for C9: three clicks (toggle a marked cell, mark a cell in
another row, click outside the grid) on a one-entry state. -/
theorem canvas_clicks_preserve_unique_status_witness :
    atMostOnePerInterval [(⟨5, Duty.DRIVING⟩ : GridEntry)]
      ∧ atMostOnePerInterval
          (([(5, 2), (5, 0), (200, 1)] : List (Nat × Nat)).foldl
            (fun es c => handleCanvasClick es c.1 c.2)
            [(⟨5, Duty.DRIVING⟩ : GridEntry)]) :=
  ⟨fun i => le_trans (List.length_filter_le _ _) (by norm_num),
    canvas_clicks_preserve_unique_status [(5, 2), (5, 0), (200, 1)]
      [(⟨5, Duty.DRIVING⟩ : GridEntry)]
      (fun i => le_trans (List.length_filter_le _ _) (by norm_num))⟩

/-- Waypoint wire shape consumed by `RouteMap`. -/
structure Waypoint where
  lat : ℚ
  lng : ℚ
deriving DecidableEq, Repr

/-- `Stop` wire shape: a type tag, distance and duration, and optional
coordinates (an absent field is `none`). -/
structure Stop where
  type : String
  distance_at : ℚ
  duration_hours : ℚ
  lat : Option ℚ
  lng : Option ℚ
deriving DecidableEq, Repr

/-- Route wire shape; the polyline is a passthrough string from the
routing provider. -/
structure RouteData where
  polyline : String
  waypoints : List Waypoint
  stops : List Stop
deriving DecidableEq, Repr

/-- Trip response wire shape; `route` is optional so that the
`trip?.route?` guard in `RouteMap` is meaningful. -/
structure TripData where
  total_distance : ℚ
  estimated_duration : ℚ
  daily_logs : List DailyLog
  route : Option RouteData
deriving DecidableEq, Repr

/-- JavaScript truthiness of an optional numeric field: an absent field
and the number 0 are falsy, every other number is truthy. -/
def truthyNum : Option ℚ → Bool
  | none => false
  | some x => !(x == 0)

/-- The map-centre computation of `RouteMap`: the effect returns early
when there is no trip, no route, or an empty waypoint list, and only
otherwise divides the reduce-sums of latitudes and longitudes by the
waypoint count. -/
def mapCenter (trip : Option TripData) : Option (ℚ × ℚ) :=
  match trip with
  | none => none
  | some t =>
    match t.route with
    | none => none
    | some r =>
      if r.waypoints.length = 0 then none
      else
        some ((r.waypoints.foldl (fun sum wp => sum + wp.lat) 0) / r.waypoints.length,
          (r.waypoints.foldl (fun sum wp => sum + wp.lng) 0) / r.waypoints.length)

/-- The planned-stops panel of `RouteMap`: rendered only for a
non-empty stop list; each stop is listed with its type, distance and
duration. -/
def stopsPanel (stops : List Stop) : List (String × ℚ × ℚ) :=
  if stops.length > 0 then stops.map (fun s => (s.type, s.distance_at, s.duration_hours))
  else []

/-- The stops that receive a map marker: the guard
`stop.lat && stop.lng` must hold. -/
def markerStops (stops : List Stop) : List Stop :=
  stops.filter (fun s => truthyNum s.lat && truthyNum s.lng)

theorem foldl_add_eq_sum_map (l : List Waypoint) (f : Waypoint → ℚ) :
    l.foldl (fun sum wp => sum + f wp) 0 = (l.map f).sum := by
  rw [List.sum_eq_foldl, List.foldl_map]

/-- C8: the map-centre division happens only after the waypoint list is
checked non-empty — a missing trip, a missing route, or an empty
waypoint list yields no centre, and every computed centre is the
arithmetic mean of the coordinates with a non-zero denominator. -/
theorem map_center_safe (trip : Option TripData) :
    (trip = none → mapCenter trip = none)
      ∧ (∀ t, trip = some t → t.route = none → mapCenter trip = none)
      ∧ (∀ t r, trip = some t → t.route = some r → r.waypoints = [] →
          mapCenter trip = none)
      ∧ (∀ t r, trip = some t → t.route = some r → r.waypoints ≠ [] →
          (r.waypoints.length : ℚ) ≠ 0
            ∧ mapCenter trip =
              some ((r.waypoints.map Waypoint.lat).sum / r.waypoints.length,
                (r.waypoints.map Waypoint.lng).sum / r.waypoints.length)) := by
  refine ⟨?_, ?_, ?_, ?_⟩
  · intro h
    rw [h, mapCenter]
  · intro t ht hr
    rw [ht, mapCenter, hr]
  · intro t r ht hr hw
    subst ht
    simp only [mapCenter, hr, hw, List.length_nil, if_true]
  · intro t r ht hr hw
    have hlen : r.waypoints.length ≠ 0 := fun h => hw (List.length_eq_zero.1 h)
    refine ⟨Nat.cast_ne_zero.2 hlen, ?_⟩
    subst ht
    simp only [mapCenter, hr]
    rw [if_neg hlen,
      foldl_add_eq_sum_map r.waypoints Waypoint.lat,
      foldl_add_eq_sum_map r.waypoints Waypoint.lng]

/-- Concrete trip with two waypoints for the C8 witness. -/
def tripTwoWaypoints : TripData :=
  ⟨200, 4, [], some ⟨"poly", [⟨10, 20⟩, ⟨30, 40⟩], []⟩⟩

/-- Witness for C8: the centre of two concrete waypoints is their mean. -/
theorem map_center_safe_witness :
    some tripTwoWaypoints = some tripTwoWaypoints
      ∧ ((2 : ℚ) ≠ 0
        ∧ mapCenter (some tripTwoWaypoints) = some (20, 30)) := by
  refine ⟨rfl, ?_⟩
  have h := (map_center_safe (some tripTwoWaypoints)).2.2.2 tripTwoWaypoints
    ⟨"poly", [⟨10, 20⟩, ⟨30, 40⟩], []⟩ rfl rfl (by decide)
  refine ⟨by norm_num, ?_⟩
  rw [h.2]
  norm_num [tripTwoWaypoints]

/-- C7: every stop in the list is shown in the stops panel with its
type, distance and duration, while a map marker is added iff both
coordinates are present and truthy; a present-but-zero coordinate gets
no marker. -/
theorem stop_panel_and_markers (stops : List Stop) (s : Stop) (hs : s ∈ stops) :
    (s.type, s.distance_at, s.duration_hours) ∈ stopsPanel stops
      ∧ (s ∈ markerStops stops ↔ (truthyNum s.lat ∧ truthyNum s.lng))
      ∧ (s.lat = some 0 ∨ s.lng = some 0 → s ∉ markerStops stops) := by
  have hpos : stops.length > 0 := List.length_pos.2 (fun h => by simp [h] at hs)
  refine ⟨?_, ?_, ?_⟩
  · rw [stopsPanel, if_pos hpos]
    exact List.mem_map.2 ⟨s, hs, rfl⟩
  · rw [markerStops]
    constructor
    · intro hm
      have := (List.mem_filter.1 hm).2
      simpa [Bool.and_eq_true] using this
    · intro ⟨h1, h2⟩
      exact List.mem_filter.2 ⟨hs, by simp [h1, h2]⟩
  · intro hz hm
    have := (List.mem_filter.1 hm).2
    rcases hz with h | h <;> rw [h] at this <;> simp [truthyNum] at this

/-- A fuel stop whose interpolated latitude is exactly 0 (present but
falsy). -/
def zeroLatStop : Stop := ⟨"fuel", 1000, 1/2, some 0, some 5⟩

/-- Witness for C7: the zero-latitude stop is listed in the panel but
receives no marker. -/
theorem stop_panel_and_markers_witness :
    zeroLatStop ∈ [zeroLatStop]
      ∧ (zeroLatStop.type, zeroLatStop.distance_at, zeroLatStop.duration_hours)
          ∈ stopsPanel [zeroLatStop]
      ∧ zeroLatStop ∉ markerStops [zeroLatStop] := by
  have h := stop_panel_and_markers [zeroLatStop] zeroLatStop (List.mem_singleton.2 rfl)
  exact ⟨List.mem_singleton.2 rfl, h.1, h.2.2 (Or.inl rfl)⟩

/-- The rendering of `LogDisplay`, abstracted: either the no-logs
message or the view of the selected day, carrying everything the
component reads of the log list (selected position, tab count, and the
selected record itself). -/
inductive LogView
  | noLogs
  | dayView (dayNumber : Nat) (totalDays : Nat) (selected : DailyLog)
deriving DecidableEq, Repr

/-- `LogDisplay`: null or empty logs render the no-logs message;
otherwise the record at `selectedLogIdx` is dereferenced (`none` models
the crash an out-of-bounds dereference would be). -/
def logDisplay (logs : Option (List DailyLog)) (selectedLogIdx : Nat) : Option LogView :=
  match logs with
  | none => some LogView.noLogs
  | some l =>
    if l.length = 0 then some LogView.noLogs
    else (l.get? selectedLogIdx).map
      (fun cur => LogView.dayView (selectedLogIdx + 1) l.length cur)

/-- C10: null or empty logs render only the no-logs message, reading no
log record; otherwise the initial index 0 is in bounds and the view is
built from the head record. -/
theorem log_display_safe (logs : Option (List DailyLog)) :
    ((logs = none ∨ logs = some []) → logDisplay logs 0 = some LogView.noLogs)
      ∧ (∀ l, logs = some l → (hl : l ≠ []) →
          logDisplay logs 0 = some (LogView.dayView 1 l.length (l.head hl))) := by
  constructor
  · rintro (h | h) <;> subst h <;> rfl
  · intro l hlogs hl
    subst hlogs
    cases l with
    | nil => exact absurd rfl hl
    | cons a as => rfl

/-- Witness for C10 at a one-day log list. -/
theorem log_display_safe_witness :
    logDisplay (some [eldLogExample]) 0
        = some (LogView.dayView 1 1 eldLogExample)
      ∧ logDisplay (some []) 0 = some LogView.noLogs := by
  constructor
  · exact (log_display_safe (some [eldLogExample])).2 [eldLogExample] rfl
      (by simp)
  · exact (log_display_safe (some [])).1 (Or.inr rfl)

/-- The trip form's state, and the payload posted to the computation
endpoint: exactly these four fields, with `current_cycle_used` a
number (parseFloat with 0 fallback keeps it numeric). -/
structure TripFormData where
  current_location : String
  pickup_location : String
  dropoff_location : String
  current_cycle_used : ℚ
deriving DecidableEq, Repr

/-- `TripForm`'s handleSubmit: an empty (falsy) location field alerts
and submits nothing; otherwise the form data is passed unchanged to
`onSubmit`, which posts it as the JSON body. -/
def handleSubmit (fd : TripFormData) : Option TripFormData :=
  if fd.current_location = "" ∨ fd.pickup_location = "" ∨ fd.dropoff_location = "" then
    none
  else some fd

/-- Everything the app reads out of a successful response: the two trip
stats shown in App, the daily-log list handed to `LogDisplay`, and the
waypoints and stops handed to `RouteMap`.  No render path reads
`route.polyline`. -/
structure RenderedApp where
  total_distance : ℚ
  estimated_duration : ℚ
  daily_logs : List DailyLog
  waypoints : Option (List Waypoint)
  stops : Option (List Stop)
deriving DecidableEq, Repr

/-- The data-flow of a successful response through App, `LogDisplay`
and `RouteMap`. -/
def appRender (t : TripData) : RenderedApp :=
  ⟨t.total_distance, t.estimated_duration, t.daily_logs,
    t.route.map RouteData.waypoints, t.route.map RouteData.stops⟩

/-- Two responses identical except for `route.polyline`. -/
def tripPolyA : TripData := ⟨100, 2, [eldLogExample], some ⟨"abc", [⟨1, 2⟩], [zeroLatStop]⟩⟩

/-- Same as `tripPolyA` with a different polyline string. -/
def tripPolyB : TripData := ⟨100, 2, [eldLogExample], some ⟨"xyz", [⟨1, 2⟩], [zeroLatStop]⟩⟩

/-- Counterexample to C3 as stated: the claim includes `polyline` among
the fields the app consumes from a successful response, but two
responses that differ only in the polyline render identically — the
frontend rebuilds the drawn polyline from the waypoints and never reads
`route.polyline`. -/
theorem trip_consumed_fields_counterexample :
    tripPolyA.route.map RouteData.polyline ≠ tripPolyB.route.map RouteData.polyline
      ∧ tripPolyA.total_distance = tripPolyB.total_distance
      ∧ tripPolyA.estimated_duration = tripPolyB.estimated_duration
      ∧ tripPolyA.daily_logs = tripPolyB.daily_logs
      ∧ tripPolyA.route.map RouteData.waypoints = tripPolyB.route.map RouteData.waypoints
      ∧ tripPolyA.route.map RouteData.stops = tripPolyB.route.map RouteData.stops
      ∧ appRender tripPolyA = appRender tripPolyB :=
  ⟨by decide, rfl, rfl, rfl, rfl, rfl, rfl⟩

/-- C3 (amended): the trip form submits exactly the four fields
`{current_location, pickup_location, dropoff_location,
current_cycle_used}` with `current_cycle_used` a number, and the app
consumes from a successful response only `total_distance`,
`estimated_duration`, `daily_logs`, and the route's `waypoints` and
`stops` — the rendered output is a function of those fields alone, and
`route.polyline` is never read. -/
theorem trip_submission_and_consumed_fields :
    (∀ fd p, handleSubmit fd = some p →
        p = ⟨fd.current_location, fd.pickup_location, fd.dropoff_location,
          fd.current_cycle_used⟩)
      ∧ (∀ t1 t2 : TripData, t1.total_distance = t2.total_distance →
          t1.estimated_duration = t2.estimated_duration →
          t1.daily_logs = t2.daily_logs →
          t1.route.map RouteData.waypoints = t2.route.map RouteData.waypoints →
          t1.route.map RouteData.stops = t2.route.map RouteData.stops →
          appRender t1 = appRender t2) := by
  constructor
  · intro fd p hp
    rw [handleSubmit] at hp
    split at hp
    · exact absurd hp (by simp)
    · cases fd
      exact (Option.some.inj hp).symm
  · intro t1 t2 h1 h2 h3 h4 h5
    rw [appRender, appRender, h1, h2, h3, h4, h5]

/-- A filled-in trip form for the C3 witness. -/
def tripFormExample : TripFormData := ⟨"Chicago, IL", "New York, NY", "Los Angeles, CA", 10⟩

/-- Witness for C3 (amended): the concrete form submits its four fields
verbatim, and the polyline-divergent responses render identically. -/
theorem trip_submission_and_consumed_fields_witness :
    handleSubmit tripFormExample = some tripFormExample
      ∧ tripFormExample
          = (⟨tripFormExample.current_location, tripFormExample.pickup_location,
              tripFormExample.dropoff_location, tripFormExample.current_cycle_used⟩ : TripFormData)
      ∧ appRender tripPolyA = appRender tripPolyB :=
  ⟨by decide,
    (trip_submission_and_consumed_fields).1 tripFormExample tripFormExample (by decide),
    (trip_submission_and_consumed_fields).2 tripPolyA tripPolyB rfl rfl rfl rfl rfl⟩

/-- Body of a non-ok response as parsed by the app: the `error` field
may be absent. -/
structure FailBody where
  error : Option String
deriving DecidableEq, Repr

/-- A response to the trip submission as `handleTripSubmit` sees it:
either ok with parsed trip data, or not ok with a parsed error body. -/
inductive TripResponse
  | ok (data : TripData)
  | fail (body : FailBody)

/-- JavaScript `a || b` on an optional string: the default is taken
when the field is absent or falsy — the empty string is falsy. -/
def jsOrElse (o : Option String) (dflt : String) : String :=
  match o with
  | none => dflt
  | some s => if s = "" then dflt else s

/-- The app state `handleTripSubmit` touches. -/
structure AppState where
  tripData : Option TripData
  error : Option String
deriving DecidableEq, Repr

/-- `handleTripSubmit`'s effect on the app state, given the parsed
response: the error state is nulled on entry; a non-ok response throws
`errorData.error || 'Failed to calculate route'`, which the catch
stores as the error, leaving `tripData` untouched; an ok response
stores the data with the error still null. -/
def handleTripSubmit (s : AppState) (r : TripResponse) : AppState :=
  match r with
  | .ok d => { tripData := some d, error := none }
  | .fail b =>
    { tripData := s.tripData,
      error := some (jsOrElse b.error "Failed to calculate route") }

/-- Counterexample to C4 as stated: for a non-ok response whose body
carries the present-but-empty error field `""`, the claim says the
surfaced message is that `error` field (the default only covers an
absent field), but the code's `||` falls through to the default on the
falsy empty string. -/
theorem trip_error_counterexample :
    (handleTripSubmit ⟨none, none⟩ (TripResponse.fail ⟨some ""⟩)).error
        = some "Failed to calculate route"
      ∧ some "Failed to calculate route" ≠ some ("" : String) :=
  ⟨rfl, by decide⟩

/-- C4 (amended): a non-ok response surfaces exactly one error message
— the body's `error` field when present and non-empty, and
'Failed to calculate route' when that field is absent or empty — and
leaves the previously displayed trip data unchanged; a successful
response stores the data and leaves the error state null. -/
theorem trip_error_surfacing (s : AppState) (r : TripResponse) :
    (∀ b, r = TripResponse.fail b →
        (handleTripSubmit s r).tripData = s.tripData
          ∧ (∀ e, b.error = some e → e ≠ "" → (handleTripSubmit s r).error = some e)
          ∧ ((b.error = none ∨ b.error = some "") →
              (handleTripSubmit s r).error = some "Failed to calculate route"))
      ∧ (∀ d, r = TripResponse.ok d →
          (handleTripSubmit s r).error = none
            ∧ (handleTripSubmit s r).tripData = some d) := by
  constructor
  · intro b hr
    subst hr
    refine ⟨rfl, ?_, ?_⟩
    · intro e he hne
      simp [handleTripSubmit, jsOrElse, he, hne]
    · rintro (h | h) <;> simp [handleTripSubmit, jsOrElse, h]
  · intro d hr
    subst hr
    exact ⟨rfl, rfl⟩

/-- Witness for C4 (amended) at concrete responses: a non-empty error
field is surfaced as-is with the old trip data kept, and a successful
response clears the error. -/
theorem trip_error_surfacing_witness :
    ((handleTripSubmit ⟨some tripPolyA, some "old"⟩
          (TripResponse.fail ⟨some "No route found"⟩)).tripData = some tripPolyA
        ∧ (handleTripSubmit ⟨some tripPolyA, some "old"⟩
            (TripResponse.fail ⟨some "No route found"⟩)).error = some "No route found")
      ∧ (handleTripSubmit ⟨some tripPolyA, some "old"⟩
          (TripResponse.ok tripPolyB)).error = none := by
  have h := (trip_error_surfacing ⟨some tripPolyA, some "old"⟩
    (TripResponse.fail ⟨some "No route found"⟩)).1 ⟨some "No route found"⟩ rfl
  have h2 := (trip_error_surfacing ⟨some tripPolyA, some "old"⟩
    (TripResponse.ok tripPolyB)).2 tripPolyB rfl
  exact ⟨⟨h.1, h.2.1 "No route found" rfl (by decide)⟩, h2.1⟩

/-- Duty statuses of the specified engine's `DutyInterval`. -/
inductive DutyStatus
  | OFF_DUTY
  | SLEEPER_BERTH
  | DRIVING
  | ON_DUTY_NOT_DRIVING
deriving DecidableEq, Repr

/-- Modelled from the spec: the `DutyInterval` record produced by the
scheduling engine, which is not among the supplied source files (the
supplied frontend only consumes its output).  Times are rational hours
measured from a fixed epoch. -/
structure DutyInterval where
  start_time : ℚ
  end_time : ℚ
  status : DutyStatus
  distance_covered_miles : ℚ
  activity_label : String
deriving DecidableEq, Repr

/-- Phase of the simulated trip: the initial pickup block, the main
driving loop, or the terminated trip. -/
inductive Phase
  | pickup
  | driving
  | finished
deriving DecidableEq, Repr

/-- Modelled from the spec: the explicit duty-state value threaded
through each ClockSimulator / CycleTracker step (§9 design note:
window position, driving hours in the window, hours since the last
break, cycle hours used), plus the StopPlanner bookkeeping (cumulative
distance and the fuel-threshold counter) and the constant average
speed `total_distance / total_driving_hours`. -/
structure SimState where
  phase : Phase
  cursor : ℚ
  remainingDrive : ℚ
  covered : ℚ
  hoursSinceBreak : ℚ
  drivingInWindow : ℚ
  windowElapsed : ℚ
  cycleUsed : ℚ
  fuelK : Nat
  speed : ℚ
deriving DecidableEq, Repr

/-- The length of the next DRIVING stretch: the largest advance that
stays within the remaining drive time, the 8-hour break rule, the
11-hour driving cap, the 14-hour window, the 70-hour cycle, and the
next 1000-mile fuel threshold. -/
def driveChunk (rem hsb diw we cyc cov spd : ℚ) (fk : Nat) : ℚ :=
  min (min rem (8 - hsb))
    (min (min (11 - diw) (14 - we))
      (min (70 - cyc) ((1000 * ((fk : ℚ) + 1) - cov) / spd)))

/-- Modelled from the spec: one step of the engine.  Emits the pickup
block first; then, in the spec's priority order, the dropoff block once
the drive time is exhausted, a fuel stop at each crossed 1000-mile
threshold, the 30-minute break after 8 hours without one, the 10-hour
rest once the 11-hour cap or 14-hour window is hit, termination when
the 70-hour cycle is exhausted (treated as terminal per §9), and
otherwise a DRIVING interval of length `driveChunk`.  Every emitted
interval starts at the cursor and the cursor advances to its end. -/
def simStep : SimState → Option (DutyInterval × SimState)
  | ⟨Phase.pickup, cur, rem, cov, hsb, diw, we, cyc, fk, spd⟩ =>
    some (⟨cur, cur + 1, DutyStatus.ON_DUTY_NOT_DRIVING, 0, "Pickup"⟩,
      ⟨Phase.driving, cur + 1, rem, cov, hsb, diw, we + 1, cyc + 1, fk, spd⟩)
  | ⟨Phase.driving, cur, rem, cov, hsb, diw, we, cyc, fk, spd⟩ =>
    if rem ≤ 0 then
      some (⟨cur, cur + 1, DutyStatus.ON_DUTY_NOT_DRIVING, 0, "Dropoff"⟩,
        ⟨Phase.finished, cur + 1, rem, cov, hsb, diw, we + 1, cyc + 1, fk, spd⟩)
    else if 1000 * ((fk : ℚ) + 1) ≤ cov then
      some (⟨cur, cur + 1/2, DutyStatus.ON_DUTY_NOT_DRIVING, 0, "Fuel stop"⟩,
        ⟨Phase.driving, cur + 1/2, rem, cov, 0, diw, we + 1/2, cyc + 1/2, fk + 1, spd⟩)
    else if 8 ≤ hsb then
      some (⟨cur, cur + 1/2, DutyStatus.OFF_DUTY, 0, "30-minute break"⟩,
        ⟨Phase.driving, cur + 1/2, rem, cov, 0, diw, we + 1/2, cyc, fk, spd⟩)
    else if 11 ≤ diw ∨ 14 ≤ we then
      some (⟨cur, cur + 10, DutyStatus.OFF_DUTY, 0, "10-hour rest"⟩,
        ⟨Phase.driving, cur + 10, rem, cov, 0, 0, 0, cyc, fk, spd⟩)
    else if 70 ≤ cyc then
      none
    else
      some (⟨cur, cur + driveChunk rem hsb diw we cyc cov spd fk, DutyStatus.DRIVING,
          driveChunk rem hsb diw we cyc cov spd fk * spd, "Driving"⟩,
        ⟨Phase.driving, cur + driveChunk rem hsb diw we cyc cov spd fk,
          rem - driveChunk rem hsb diw we cyc cov spd fk,
          cov + driveChunk rem hsb diw we cyc cov spd fk * spd,
          hsb + driveChunk rem hsb diw we cyc cov spd fk,
          diw + driveChunk rem hsb diw we cyc cov spd fk,
          we + driveChunk rem hsb diw we cyc cov spd fk,
          cyc + driveChunk rem hsb diw we cyc cov spd fk, fk, spd⟩)
  | ⟨Phase.finished, _, _, _, _, _, _, _, _, _⟩ => none

/-- The interval stream produced by iterating `simStep` at most `fuel`
times. -/
def simRun : Nat → SimState → List DutyInterval
  | 0, _ => []
  | n + 1, s =>
    match simStep s with
    | none => []
    | some (i, s2) => i :: simRun n s2

/-- The engine's starting state for a trip input. -/
def initState (total_distance total_driving_hours cycle_hours_used start_time : ℚ) :
    SimState :=
  ⟨Phase.pickup, start_time, total_driving_hours, 0, 0, 0, 0, cycle_hours_used, 0,
    total_distance / total_driving_hours⟩

/-- The `DutyInterval` stream the engine returns for a trip input. -/
def engineIntervals (total_distance total_driving_hours cycle_hours_used start_time : ℚ)
    (fuel : Nat) : List DutyInterval :=
  simRun fuel (initState total_distance total_driving_hours cycle_hours_used start_time)

/-- The list is a contiguous chain of positive-length intervals
starting at time `t`. -/
def chainFrom (t : ℚ) : List DutyInterval → Prop
  | [] => True
  | i :: l => i.start_time = t ∧ i.start_time < i.end_time ∧ chainFrom i.end_time l

theorem driveChunk_pos (rem hsb diw we cyc cov spd : ℚ) (fk : Nat) (hspd : 0 < spd)
    (h1 : ¬rem ≤ 0) (h2 : ¬1000 * ((fk : ℚ) + 1) ≤ cov)
    (h3 : ¬8 ≤ hsb) (h4 : ¬(11 ≤ diw ∨ 14 ≤ we)) (h5 : ¬70 ≤ cyc) :
    0 < driveChunk rem hsb diw we cyc cov spd fk := by
  push_neg at h1 h2 h3 h4 h5
  obtain ⟨h4a, h4b⟩ := h4
  simp only [driveChunk, lt_min_iff]
  exact ⟨⟨h1, by linarith⟩, ⟨⟨by linarith, by linarith⟩,
    ⟨by linarith, div_pos (by linarith) hspd⟩⟩⟩

theorem simStep_frame (s : SimState) (i : DutyInterval) (s2 : SimState)
    (hspd : 0 < s.speed) (heq : simStep s = some (i, s2)) :
    i.start_time = s.cursor ∧ i.start_time < i.end_time
      ∧ s2.cursor = i.end_time ∧ s2.speed = s.speed := by
  obtain ⟨ph, cur, rem, cov, hsb, diw, we, cyc, fk, spd⟩ := s
  cases ph with
  | pickup =>
    simp only [simStep, Option.some.injEq, Prod.mk.injEq] at heq
    obtain ⟨hi, hs2⟩ := heq
    subst hi
    subst hs2
    exact ⟨rfl, by norm_num, rfl, rfl⟩
  | driving =>
    simp only [simStep] at heq
    split_ifs at heq with h1 h2 h3 h4 h5
    · simp only [Option.some.injEq, Prod.mk.injEq] at heq
      obtain ⟨hi, hs2⟩ := heq
      subst hi
      subst hs2
      exact ⟨rfl, by norm_num, rfl, rfl⟩
    · simp only [Option.some.injEq, Prod.mk.injEq] at heq
      obtain ⟨hi, hs2⟩ := heq
      subst hi
      subst hs2
      exact ⟨rfl, by norm_num, rfl, rfl⟩
    · simp only [Option.some.injEq, Prod.mk.injEq] at heq
      obtain ⟨hi, hs2⟩ := heq
      subst hi
      subst hs2
      exact ⟨rfl, by norm_num, rfl, rfl⟩
    · simp only [Option.some.injEq, Prod.mk.injEq] at heq
      obtain ⟨hi, hs2⟩ := heq
      subst hi
      subst hs2
      exact ⟨rfl, by norm_num, rfl, rfl⟩
    · simp only [Option.some.injEq, Prod.mk.injEq] at heq
      obtain ⟨hi, hs2⟩ := heq
      subst hi
      subst hs2
      have hpos := driveChunk_pos rem hsb diw we cyc cov spd fk hspd h1 h2 h3 h4 h5
      refine ⟨rfl, ?_, rfl, rfl⟩
      show cur < cur + driveChunk rem hsb diw we cyc cov spd fk
      linarith
  | finished => simp [simStep] at heq

theorem simRun_chainFrom (fuel : Nat) :
    ∀ s : SimState, 0 < s.speed → chainFrom s.cursor (simRun fuel s) := by
  induction fuel with
  | zero =>
    intro s _
    simp [simRun, chainFrom]
  | succ n ih =>
    intro s hs
    rw [simRun]
    cases heq : simStep s with
    | none => simp [chainFrom]
    | some p =>
      obtain ⟨i, s2⟩ := p
      obtain ⟨h1, h2, h3, h4⟩ := simStep_frame s i s2 hs heq
      refine ⟨h1, h2, ?_⟩
      rw [← h3]
      exact ih s2 (h4 ▸ hs)

theorem chainFrom_spec (l : List DutyInterval) : ∀ t, chainFrom t l →
    List.Chain' (fun a b => a.end_time = b.start_time) l
      ∧ (∀ i ∈ l, i.start_time < i.end_time)
      ∧ List.Chain' (fun a b => a.start_time < b.start_time) l := by
  induction l with
  | nil =>
    intro t _
    exact ⟨List.chain'_nil, by simp, List.chain'_nil⟩
  | cons i l ih =>
    intro t h
    obtain ⟨h1, h2, h3⟩ := h
    obtain ⟨c1, c2, c3⟩ := ih i.end_time h3
    refine ⟨?_, ?_, ?_⟩
    · cases l with
      | nil => exact List.chain'_singleton i
      | cons j l2 =>
        obtain ⟨hj1, _, _⟩ := h3
        exact List.chain'_cons.2 ⟨hj1.symm, c1⟩
    · intro x hx
      rcases List.mem_cons.1 hx with hx | hx
      · rw [hx]
        exact h2
      · exact c2 x hx
    · cases l with
      | nil => exact List.chain'_singleton i
      | cons j l2 =>
        obtain ⟨hj1, _, _⟩ := h3
        refine List.chain'_cons.2 ⟨?_, c3⟩
        rw [hj1]
        exact h2

/-- C1: for every valid trip input and any iteration budget, the
`DutyInterval` stream the engine produces is contiguous (each
interval's end equals the next one's start), every interval has
positive length, and start times strictly increase — no gaps and no
overlaps. -/
theorem duty_intervals_contiguous (D H C T : ℚ) (fuel : Nat)
    (hD : 0 < D) (hH : 0 < H) (_hC0 : 0 ≤ C) (_hC70 : C ≤ 70) :
    List.Chain' (fun a b => a.end_time = b.start_time) (engineIntervals D H C T fuel)
      ∧ (∀ i ∈ engineIntervals D H C T fuel, i.start_time < i.end_time)
      ∧ List.Chain' (fun a b => a.start_time < b.start_time)
          (engineIntervals D H C T fuel) := by
  have hs : 0 < (initState D H C T).speed := div_pos hD hH
  exact chainFrom_spec _ _ (simRun_chainFrom fuel _ hs)

/-- Witness for C1 at the spec's scenario input (660 miles, 11 driving
hours, fresh cycle, 06:00 start). -/
theorem duty_intervals_contiguous_witness :
    ((0 : ℚ) < 660 ∧ (0 : ℚ) < 11 ∧ (0 : ℚ) ≤ 0 ∧ (0 : ℚ) ≤ 70)
      ∧ List.Chain' (fun a b => a.end_time = b.start_time)
          (engineIntervals 660 11 0 6 100) :=
  ⟨⟨by norm_num, by norm_num, le_refl 0, by norm_num⟩,
    (duty_intervals_contiguous 660 11 0 6 100 (by norm_num) (by norm_num)
      (le_refl 0) (by norm_num)).1⟩

/-- Modelled from the spec: the derived stops view of a fuel stop as
the StopPlanner (absent from the supplied source files) produces it —
type tag, cumulative distance, duration, interval status, and activity
label. -/
structure PlannedStop where
  type : String
  distance_at : ℚ
  duration_hours : ℚ
  status : DutyStatus
  label : String
deriving DecidableEq, Repr

/-- Modelled from the spec: how many 1000-mile thresholds lie strictly
below the total distance. -/
def fuelStopCount (total_distance : ℚ) : Nat :=
  (⌈total_distance / 1000⌉ - 1).toNat

/-- Modelled from the spec: the fuel stops the StopPlanner inserts —
one half-hour ON_DUTY_NOT_DRIVING stop labelled "Fuel stop" at each
1000-mile multiple strictly below the total distance. -/
def fuelStops (total_distance : ℚ) : List PlannedStop :=
  (List.range (fuelStopCount total_distance)).map
    (fun (k : Nat) => ⟨"fuel", 1000 * ((k : ℚ) + 1), 1/2,
      DutyStatus.ON_DUTY_NOT_DRIVING, "Fuel stop"⟩)

/-- C5: every fuel stop is a half-hour ON_DUTY_NOT_DRIVING stop
labelled "Fuel stop", and a fuel stop exists at distance `d` exactly
when `d` is a positive multiple of 1000 miles strictly below the total
distance. -/
theorem fuel_stops_at_thousand_mile_multiples (D : ℚ) :
    (∀ s ∈ fuelStops D, s.type = "fuel" ∧ s.duration_hours = 1/2
        ∧ s.status = DutyStatus.ON_DUTY_NOT_DRIVING ∧ s.label = "Fuel stop")
      ∧ (∀ d : ℚ, (∃ s ∈ fuelStops D, s.distance_at = d)
          ↔ ∃ k : Nat, 1 ≤ k ∧ d = 1000 * k ∧ d < D) := by
  constructor
  · intro s hs
    rw [fuelStops] at hs
    obtain ⟨k, _, hk⟩ := List.mem_map.1 hs
    rw [← hk]
    exact ⟨rfl, rfl, rfl, rfl⟩
  · intro d
    constructor
    · rintro ⟨s, hs, hd⟩
      rw [fuelStops] at hs
      obtain ⟨k, hkr, hks⟩ := List.mem_map.1 hs
      have hkc : k < fuelStopCount D := List.mem_range.1 hkr
      have hdk : d = 1000 * ((k : ℚ) + 1) := by rw [← hd, ← hks]
      refine ⟨k + 1, by omega, by push_cast [hdk]; ring, ?_⟩
      have hz : (k : ℤ) + 1 < ⌈D / 1000⌉ := by
        have ht := Int.lt_toNat.1 hkc
        simp only [fuelStopCount] at ht
        omega
      have hq : ((k : ℚ) + 1) < D / 1000 := by
        have := Int.lt_ceil.1 hz
        push_cast at this
        linarith
      rw [hdk]
      rw [lt_div_iff₀ (by norm_num : (0 : ℚ) < 1000)] at hq
      linarith
    · rintro ⟨k, hk1, hkd, hkD⟩
      have hq : (k : ℚ) < D / 1000 := by
        rw [lt_div_iff₀ (by norm_num : (0 : ℚ) < 1000)]
        rw [hkd] at hkD
        linarith
      have hz : (k : ℤ) < ⌈D / 1000⌉ := Int.lt_ceil.2 (by push_cast; linarith)
      have hmem : k - 1 < fuelStopCount D := by
        simp only [fuelStopCount]
        omega
      refine ⟨⟨"fuel", 1000 * (((k - 1 : Nat) : ℚ) + 1), 1/2,
        DutyStatus.ON_DUTY_NOT_DRIVING, "Fuel stop"⟩, ?_, ?_⟩
      · rw [fuelStops]
        exact List.mem_map.2 ⟨k - 1, List.mem_range.2 hmem, rfl⟩
      · show 1000 * (((k - 1 : Nat) : ℚ) + 1) = d
        rw [hkd]
        congr 1
        push_cast [Nat.cast_sub hk1]
        ring

/-- Witness for C5: the 2015.5-mile trip has fuel stops at exactly
1000 and 2000 miles and none at 3000. -/
theorem fuel_stops_at_thousand_mile_multiples_witness :
    (∃ s ∈ fuelStops (4031 / 2 : ℚ), s.distance_at = 1000)
      ∧ (∃ s ∈ fuelStops (4031 / 2 : ℚ), s.distance_at = 2000)
      ∧ ¬(∃ s ∈ fuelStops (4031 / 2 : ℚ), s.distance_at = 3000) := by
  refine ⟨?_, ?_, ?_⟩
  · exact ((fuel_stops_at_thousand_mile_multiples (4031 / 2)).2 1000).2
      ⟨1, le_refl 1, by norm_num, by norm_num⟩
  · exact ((fuel_stops_at_thousand_mile_multiples (4031 / 2)).2 2000).2
      ⟨2, by norm_num, by norm_num, by norm_num⟩
  · intro h
    obtain ⟨k, _, hk2, hk3⟩ :=
      ((fuel_stops_at_thousand_mile_multiples (4031 / 2)).2 3000).1 h
    norm_num at hk3

end DriverLogs
